import Mathlib

/-!
Shallow embedding of the NDCA execution core: the program-counter-driven
interpreter (`src/interpreter/mod.rs`), the span-attributed error model
(`src/errors.rs`), and the parts of the data model those files use.

The repository ships `src/errors.rs`, `src/main.rs` and
`src/interpreter/mod.rs`; the modules `ast`, `span`, `types` and
`interpreter/value` are not in the source tree, so the definitions taken
from them are modelled from the specification (each such definition says
so in its doc comment).  Machine integers are modelled as `Int`/`Nat`
with the 64-bit bounds made explicit in the checked operations.
-/

namespace NDCA

/-- Modelled from the spec: `Span` (src/span.rs is absent) — an immutable
`(start, end)` half-open range into the source text.  The Rust field `end`
is named `stop` here because `end` is a Lean keyword. -/
structure Span where
  start : Nat
  stop : Nat
deriving DecidableEq, Repr

/-- Modelled from the spec: `Spanned<T>` (src/span.rs is absent) — a value
together with the `Span` it originated from. -/
structure Spanned (α : Type) where
  span : Span
  inner : α
deriving DecidableEq, Repr

/-- Modelled from the spec: the closed set of static types (src/types.rs is
absent): `Int`, `CellState`, others reserved/void. -/
inductive Ty where
  | Int
  | CellState
  | Void
deriving DecidableEq, Repr

/-- `type LangInt = i64` (src/types.rs is absent): modelled as `Int`, with
the 64-bit bounds enforced by the checked arithmetic operations. -/
abbrev LangInt := Int

/-- `type LangCellState = u8` (src/types.rs is absent): modelled as `Nat`,
with the `as u8` cast written as `% 256` where it occurs. -/
abbrev LangCellState := Nat

/-- `const CELL_STATE_COUNT: usize = 100;` — from src/main.rs line 20. -/
def CELL_STATE_COUNT : Nat := 100

/-- The smallest `i64`, `-2^63`. -/
def I64_MIN : Int := -9223372036854775808

/-- The largest `i64`, `2^63 - 1`. -/
def I64_MAX : Int := 9223372036854775807

/-- `LangErrorMsg` from src/errors.rs lines 70–97.  Payloads that are
`&'static str`, `Cow` or boxed errors are modelled as `String`.

Note: src/interpreter/mod.rs line 10 imports two further variants,
`IntegerOverflow` and `DivideByZero`, which src/errors.rs does **not**
declare (its runtime-error group has only the four operation-specific
overflow kinds and `CellStateOutOfRange`).  Both variants are included
here so that the interpreter module can be embedded as written. -/
inductive LangErrorMsg where
  | Unimplemented
  | InternalError (s : String)
  | BoxedInternalError (s : String)
  | UnknownSymbol
  | Unterminated (s : String)
  | Unmatched (c1 c2 : Char)
  | Expected (s : String)
  | TopLevelNonDirective
  | InvalidDirectiveName
  | MissingTransitionFunction
  | MultipleTransitionFunctions
  | TypeError (expected got : Ty)
  | UseOfUninitializedVariable
  | IntegerOverflowDuringNegation
  | IntegerOverflowDuringAddition
  | IntegerOverflowDuringSubtraction
  | IntegerOverflowDuringMultiplication
  | CellStateOutOfRange
  | IntegerOverflow
  | DivideByZero
deriving DecidableEq, Repr

/-- `LangError` from src/errors.rs lines 37–41: a span-optional error. -/
structure LangError where
  span : Option Span
  msg : LangErrorMsg
deriving DecidableEq, Repr

/-- `LangErrorMsg::with_span` from src/errors.rs lines 168–173. -/
def LangErrorMsg.with_span (msg : LangErrorMsg) (span : Span) : LangError :=
  { span := some span, msg := msg }

/-- `LangErrorMsg::without_span` from src/errors.rs lines 174–179. -/
def LangErrorMsg.without_span (msg : LangErrorMsg) : LangError :=
  { span := none, msg := msg }

/-- Outcome of a fallible interpreter computation: `crash` models a Rust
panic (indexing a `HashMap` at a missing key), `err` a `LangResult` error,
`ok` a success. -/
inductive NR (α : Type) where
  | crash : NR α
  | err (e : LangError) : NR α
  | ok (a : α) : NR α
deriving Repr, DecidableEq

/-- Bind for `NR`: propagate crashes and errors, feed successes onward. -/
def NR.bind {α β : Type} : NR α → (α → NR β) → NR β
  | .crash, _ => .crash
  | .err e, _ => .err e
  | .ok a, f => f a

instance : Monad NR where
  pure := NR.ok
  bind := NR.bind

@[simp] theorem NR.bind_ok {α β : Type} (a : α) (f : α → NR β) :
    (NR.ok a >>= f) = f a := rfl

@[simp] theorem NR.bind_err {α β : Type} (e : LangError) (f : α → NR β) :
    ((NR.err e : NR α) >>= f) = NR.err e := rfl

@[simp] theorem NR.bind_crash {α β : Type} (f : α → NR β) :
    ((NR.crash : NR α) >>= f) = NR.crash := rfl

@[simp] theorem NR.pure_eq_ok {α : Type} (a : α) : (pure a : NR α) = NR.ok a := rfl

/-- `Value` from src/interpreter/value.rs (absent from src/); modelled
from the spec: a tagged union of a signed 64-bit integer and a cell state. -/
inductive Value where
  | Int (i : LangInt)
  | CellState (c : LangCellState)
deriving DecidableEq, Repr

/-- `Value::ty` — modelled from the spec: every `Value` corresponds to
exactly one `Type`. -/
def Value.ty : Value → Ty
  | .Int _ => .Int
  | .CellState _ => .CellState

/-- `Value::as_int` — modelled from the spec: typed narrowing accessor
that fails with an internal error if the tag is not `Int`. -/
def Value.as_int : Value → NR LangInt
  | .Int i => .ok i
  | v => .err ((LangErrorMsg.InternalError
      ("Expected integer value but got " ++ reprStr v.ty)).without_span)

/-- `Value::as_cell_state` — modelled from the spec: typed narrowing
accessor that fails with an internal error if the tag is not `CellState`. -/
def Value.as_cell_state : Value → NR LangCellState
  | .CellState c => .ok c
  | v => .err ((LangErrorMsg.InternalError
      ("Expected cell state value but got " ++ reprStr v.ty)).without_span)

/-- `Value::from_type` — modelled from the spec: zero/default value
construction from a static type; reserved/void types have no value. -/
def Value.from_type : Ty → Option Value
  | .Int => some (.Int 0)
  | .CellState => some (.CellState 0)
  | .Void => none

/-- `ast::Cmp` — modelled from the spec: the six comparison operators of a
chained integer comparison. -/
inductive Cmp where
  | Eql
  | Neq
  | Lt
  | Gt
  | Lte
  | Gte
deriving DecidableEq, Repr

/-- `ast::EqCmp` — modelled from the spec: the equality-only comparison
operators of a chained cell-state comparison. -/
inductive EqCmp where
  | Eql
  | Neq
deriving DecidableEq, Repr

/-- `ast::MathOp` — modelled from the spec: binary arithmetic operators. -/
inductive MathOp where
  | Add
  | Sub
  | Mul
  | Div
  | Rem
  | Exp
deriving DecidableEq, Repr

/-- `ast::Op` — modelled from the spec (src/ast.rs is absent): the
interpreter handles `Op::Math` and treats every other operator kind as
unimplemented (the wildcard arm at src/interpreter/mod.rs line 223);
`NonMath` stands for those other kinds. -/
inductive Op where
  | Math (op : MathOp)
  | NonMath
deriving DecidableEq, Repr

mutual

/-- `ast::IntExpr` — modelled from the spec and from its uses in
src/interpreter/mod.rs lines 192–240: literal, variable reference, binary
op, unary negation, chained integer comparison, chained cell-state
comparison, and an unimplemented function-call placeholder.  The
`CmpExpr` payload (`initial` operand plus `comparisons` pairs) is inlined
into the two chain constructors. -/
inductive IntExpr where
  | FnCall
  | Var (name : String)
  | Literal (i : LangInt)
  | Op (lhs : Spanned IntExpr) (op : NDCA.Op) (rhs : Spanned IntExpr)
  | Neg (x : Spanned IntExpr)
  | CmpInt (initial : Spanned IntExpr) (comparisons : List (Cmp × Spanned IntExpr))
  | CmpCellState (initial : Spanned CellStateExpr)
      (comparisons : List (EqCmp × Spanned CellStateExpr))

/-- `ast::CellStateExpr` — modelled from the spec and from its uses in
src/interpreter/mod.rs lines 245–269: variable reference, integer-to-cell-
state conversion, and an unimplemented function-call placeholder. -/
inductive CellStateExpr where
  | FnCall
  | Var (name : String)
  | FromId (e : Spanned IntExpr)

end

/-- `ast::Expr` — modelled from the spec: a typed expression is either an
integer expression or a cell-state expression. -/
inductive Expr where
  | Int (e : Spanned IntExpr)
  | CellState (e : Spanned CellStateExpr)

/-- `Expr::ty` — modelled from the spec: the static type of an expression. -/
def Expr.ty : Expr → Ty
  | .Int _ => .Int
  | .CellState _ => .CellState

/-- `Expr::span` — modelled from the spec: the span of the wrapped
expression (used by `with_span(return_expr)`). -/
def Expr.span : Expr → Span
  | .Int e => e.span
  | .CellState e => e.span

/-- `Expr::as_cell_state_expr` — modelled from the spec: narrow an
expression to its cell-state variant, an internal error otherwise
(unreachable after type checking). -/
def Expr.as_cell_state_expr : Expr → NR (Spanned CellStateExpr)
  | .CellState e => .ok e
  | .Int _ => .err ((LangErrorMsg.InternalError
      "Expected cell state expression but got integer expression").without_span)

/-- `ast::Statement` — modelled from the spec (src/ast.rs is absent) and
from its uses in src/interpreter/mod.rs lines 105–170. -/
inductive Statement where
  | SetVar (var_name : Spanned String) (value_expr : Expr)
  | If (cond_expr : Spanned IntExpr) (if_true : List (Spanned Statement))
      (if_false : List (Spanned Statement))
  | Return (return_expr : Expr)
  | End
  | Goto (idx : Nat)

/-- `ast::StatementBlock` — modelled from the spec: an ordered sequence of
spanned statements. -/
abbrev StatementBlock := List (Spanned Statement)

/-- `ast::FunctionType` — modelled from the spec: `Transition` or
`Helper(return type)`. -/
inductive FunctionType where
  | Transition
  | Helper (returnType : Ty)
deriving DecidableEq, Repr

/-- `ast::Function` — modelled from the spec: statements, declared
variables, and the function type. -/
structure Function where
  statements : StatementBlock
  vars : List (String × Ty)
  fn_type : FunctionType

/-- `ast::Rule` — modelled from the spec and src/interpreter/mod.rs lines
14–17: the source text and the transition function. -/
structure Rule where
  source_code : String
  transition_fn : Function

/-- `i64::checked_add`: `none` exactly when the exact sum leaves the
signed 64-bit range. -/
def checked_add (a b : Int) : Option Int :=
  if I64_MIN ≤ a + b ∧ a + b ≤ I64_MAX then some (a + b) else none

/-- `i64::checked_sub`: `none` exactly when the exact difference leaves
the signed 64-bit range. -/
def checked_sub (a b : Int) : Option Int :=
  if I64_MIN ≤ a - b ∧ a - b ≤ I64_MAX then some (a - b) else none

/-- `i64::checked_mul`: `none` exactly when the exact product leaves the
signed 64-bit range. -/
def checked_mul (a b : Int) : Option Int :=
  if I64_MIN ≤ a * b ∧ a * b ≤ I64_MAX then some (a * b) else none

/-- `i64::checked_div`: truncated division; `none` on a zero divisor or on
the single overflowing case `I64_MIN / -1`. -/
def checked_div (a b : Int) : Option Int :=
  if b = 0 ∨ (a = I64_MIN ∧ b = -1) then none else some (a.tdiv b)

/-- `i64::checked_rem`: remainder of truncated division; `none` on a zero
divisor or on the overflowing case `I64_MIN % -1`. -/
def checked_rem (a b : Int) : Option Int :=
  if b = 0 ∨ (a = I64_MIN ∧ b = -1) then none else some (a.tmod b)

/-- `i64::checked_neg`: `none` exactly on `I64_MIN`. -/
def checked_neg (a : Int) : Option Int :=
  if a = I64_MIN then none else some (-a)

/-- The comparator closure passed to `eval_multi_comparison_generic` by
`State::eval_multi_comparison_any` (src/interpreter/mod.rs lines 290–297),
monomorphised to integers. -/
def evalCompareAny (cmp : Cmp) (x y : LangInt) : Bool :=
  match cmp with
  | .Eql => x = y
  | .Neq => x ≠ y
  | .Lt => x < y
  | .Gt => x > y
  | .Lte => x ≤ y
  | .Gte => x ≥ y

/-- The comparator closure passed to `eval_multi_comparison_generic` by
`State::eval_multi_comparison_eq` (src/interpreter/mod.rs lines 278–281),
monomorphised to cell states. -/
def evalCompareEq (cmp : EqCmp) (x y : LangCellState) : Bool :=
  match cmp with
  | .Eql => x = y
  | .Neq => x ≠ y

/-- `State` from src/interpreter/mod.rs lines 53–67: the flattened
instruction list, the program counter, the variable store (the `HashMap`
is modelled as an association list; spec: keys unique, order irrelevant)
and the function type. -/
structure State where
  instructions : StatementBlock
  instruction_pointer : Nat
  vars : List (String × Value)
  function_type : FunctionType

/-- Lookup in the variable store; `none` models the missing-key case in
which Rust's `HashMap` indexing panics. -/
def lookupVar (vars : List (String × Value)) (name : String) : Option Value :=
  (vars.find? (fun p => p.1 = name)).map (fun p => p.2)

/-- In-place update of the variable store (`*self.vars.get_mut(..) = v`). -/
def updateVar (vars : List (String × Value)) (name : String) (v : Value) :
    List (String × Value) :=
  vars.map (fun p => if p.1 = name then (p.1, v) else p)

/-- The result of the arithmetic-operator `match` inside
`State::eval_int_expr` (src/interpreter/mod.rs lines 213–220): each of the
five implemented operators yields its checked result, `Exp` faults
`Unimplemented` (via `?`) before the `ok_or_else` overflow check. -/
def evalMathOp (mop : MathOp) (l r : LangInt) (span : Span) : NR (Option LangInt) :=
  match mop with
  | .Add => .ok (checked_add l r)
  | .Sub => .ok (checked_sub l r)
  | .Mul => .ok (checked_mul l r)
  | .Div => .ok (checked_div l r)
  | .Rem => .ok (checked_rem l r)
  | .Exp => .err (LangErrorMsg.Unimplemented.with_span span)

mutual

/-- `State::eval_int_expr` from src/interpreter/mod.rs lines 187–242:
span-preserving evaluation of an integer expression. -/
def eval_int_expr (st : State) (expression : Spanned IntExpr) :
    NR (Spanned LangInt) :=
  match expression with
  | ⟨span, e⟩ =>
    match e with
    | .FnCall => .err (LangErrorMsg.Unimplemented.with_span span)
    | .Var var_name =>
      match lookupVar st.vars var_name with
      | none => .crash
      | some v => do
        let i ← v.as_int
        .ok ⟨span, i⟩
    | .Literal i => .ok ⟨span, i⟩
    | .Op lhs op rhs => do
      let l ← eval_int_expr st lhs
      let r ← eval_int_expr st rhs
      match op with
      | .Math math_op => do
        -- Check for division by zero.
        if (math_op = .Div ∨ math_op = .Rem) ∧ r.inner = 0 then
          .err (LangErrorMsg.DivideByZero.with_span span)
        else do
          -- Do the operation, checking for overflow.
          let result ← evalMathOp math_op l.inner r.inner span
          match result with
          | some v => .ok ⟨span, v⟩
          | none => .err (LangErrorMsg.IntegerOverflow.with_span span)
      | .NonMath => .err (LangErrorMsg.Unimplemented.with_span span)
    | .Neg x => do
      let v ← eval_int_expr st x
      match checked_neg v.inner with
      | some r => .ok ⟨span, r⟩
      | none => .err (LangErrorMsg.IntegerOverflow.with_span span)
    | .CmpInt initial comparisons => do
      let first ← eval_int_expr st initial
      let r ← eval_chain_int st first.inner comparisons
      .ok ⟨span, r⟩
    | .CmpCellState initial comparisons => do
      let first ← eval_cell_state_expr st initial
      let r ← eval_chain_cell st first.inner comparisons
      .ok ⟨span, r⟩

/-- `State::eval_cell_state_expr` from src/interpreter/mod.rs lines
245–269: span-preserving evaluation of a cell-state expression.  The
`id_value as LangCellState` cast (`as u8`) is written `% 256`; it is
guarded by `id_value < CELL_STATE_COUNT`. -/
def eval_cell_state_expr (st : State) (expression : Spanned CellStateExpr) :
    NR (Spanned LangCellState) :=
  match expression with
  | ⟨span, e⟩ =>
    match e with
    | .FnCall => .err (LangErrorMsg.Unimplemented.with_span span)
    | .Var var_name =>
      match lookupVar st.vars var_name with
      | none => .crash
      | some v => do
        let c ← v.as_cell_state
        .ok ⟨span, c⟩
    | .FromId id_expr => do
      let id ← eval_int_expr st id_expr
      if 0 ≤ id.inner ∧ id.inner.toNat < CELL_STATE_COUNT then
        .ok ⟨span, id.inner.toNat % 256⟩
      else
        .err (LangErrorMsg.CellStateOutOfRange.with_span span)

/-- The comparison loop of `State::eval_multi_comparison_generic`
(src/interpreter/mod.rs lines 301–322), monomorphised to integer chains:
on a false comparison return `0` immediately; the current right-hand side
becomes the next left-hand side; return `1` after the last comparison. -/
def eval_chain_int (st : State) (lhs : LangInt)
    (comparisons : List (Cmp × Spanned IntExpr)) : NR LangInt :=
  match comparisons with
  | [] => .ok 1
  | (comparison, expr2) :: rest => do
    let rhs ← eval_int_expr st expr2
    if evalCompareAny comparison lhs rhs.inner then
      eval_chain_int st rhs.inner rest
    else
      .ok 0

/-- The comparison loop of `State::eval_multi_comparison_generic`
(src/interpreter/mod.rs lines 301–322), monomorphised to cell-state
chains (equality operators only, per `eval_multi_comparison_eq`). -/
def eval_chain_cell (st : State) (lhs : LangCellState)
    (comparisons : List (EqCmp × Spanned CellStateExpr)) : NR LangInt :=
  match comparisons with
  | [] => .ok 1
  | (comparison, expr2) :: rest => do
    let rhs ← eval_cell_state_expr st expr2
    if evalCompareEq comparison lhs rhs.inner then
      eval_chain_cell st rhs.inner rest
    else
      .ok 0

end

/-- `ExecuteResult` from src/interpreter/mod.rs lines 36–41. -/
inductive ExecuteResult where
  | Continue
  | Return (value : Option Value)
deriving DecidableEq, Repr

/-- `State::goto_block` from src/interpreter/mod.rs lines 174–184: jump to
the target of the `Goto` presumed to head the given block; an empty block
is a no-op; any other first statement is an internal error.  Returns the
new program counter. -/
def goto_block (instruction_pointer : Nat) (block : StatementBlock) : NR Nat :=
  match (block[0]?).map (fun s => s.inner) with
  | some (Statement.Goto idx) => .ok idx
  | none => .ok instruction_pointer
  | _ => .err ((LangErrorMsg.InternalError
      "Block in interpreter did not contain GOTO statement").without_span)

/-- `State::step` from src/interpreter/mod.rs lines 105–170: execute the
instruction under the program counter; state passing is explicit. -/
def step (st : State) : NR (ExecuteResult × State) :=
  match st.instructions[st.instruction_pointer]? with
  | some instruction =>
    (match instruction.inner with
    | .SetVar var_name value_expr =>
      match lookupVar st.vars var_name.inner with
      | none => .crash
      | some stored =>
        if stored.ty ≠ value_expr.ty then
          .err ((LangErrorMsg.InternalError
            "Invalid variable assignment not caught by type checker").without_span)
        else do
          -- Evaluate the expression, depending on the type.
          let var_value ← match value_expr with
            | .Int e => do
              let v ← eval_int_expr st e
              pure (Value.Int v.inner)
            | .CellState e => do
              let v ← eval_cell_state_expr st e
              pure (Value.CellState v.inner)
          -- Store the result in the variable.
          .ok (.Continue,
            { st with
              vars := updateVar st.vars var_name.inner var_value
              instruction_pointer := st.instruction_pointer + 1 })
    | .If cond_expr if_true if_false => do
      -- Evaluate the condition.
      let cond ← eval_int_expr st cond_expr
      let condition_value : Bool := cond.inner ≠ 0
      -- Decide which block to execute.
      let block := if condition_value then if_true else if_false
      -- Jump there.
      let ip ← goto_block st.instruction_pointer block
      .ok (.Continue, { st with instruction_pointer := ip + 1 })
    | .Return return_expr =>
      match st.function_type with
      | .Transition =>
        if Ty.CellState ≠ return_expr.ty then
          .err ((LangErrorMsg.InternalError
            "Invalid return statement not caught by type checker").without_span)
        else do
          let cse ← return_expr.as_cell_state_expr
          let v ← eval_cell_state_expr st cse
          .ok (.Return (some (Value.CellState v.inner)), st)
      | .Helper _ => .err (LangErrorMsg.Unimplemented.with_span return_expr.span)
    | .End => .ok (.Return none, st)
    | .Goto idx =>
      .ok (.Continue, { st with instruction_pointer := idx + 1 }))
  | none => .ok (.Return none, st)

/-- `State::run` from src/interpreter/mod.rs lines 96–102, with explicit
fuel: `none` means the loop was not finished within `fuel` steps. -/
def runFuel (fuel : Nat) (st : State) : Option (NR (Option Value)) :=
  match fuel with
  | 0 => none
  | fuel + 1 =>
    match step st with
    | .crash => some .crash
    | .err e => some (.err e)
    | .ok (.Return ret, _) => some (.ok ret)
    | .ok (.Continue, st') => runFuel fuel st'

/-- Relocation step of the flattening transform — modelled from the spec:
append a (recursively flattened) non-empty nested block to the relocated
tail and stand in for it with one `Goto (start index − 1)`; keep an empty
block empty. -/
def relocateBlock (origLen : Nat) (span : Span) (block : StatementBlock)
    (tail : StatementBlock) : StatementBlock × StatementBlock :=
  match block with
  | [] => ([], tail)
  | _ =>
    let start := origLen + tail.length
    ([⟨span, .Goto (start - 1)⟩], tail ++ block)

mutual

/-- `ast::flatten_block` — modelled from the spec (src/ast.rs is absent):
process the body depth-first; relocate each nested block's statements to
the end of the top-level sequence and replace the block by a single
`Goto` whose stored target is the relocated start index minus one
(pre-decremented for the interpreter's universal `+1`); an empty nested
block stays empty.  `origLen` is the length of the top-level body (which
never changes — only the relocated tail grows), `tail` the relocated
statements accumulated so far; each helper returns the rewritten piece
together with the grown tail. -/
def flattenList (origLen : Nat) (l : StatementBlock) (tail : StatementBlock) :
    StatementBlock × StatementBlock :=
  match l with
  | [] => ([], tail)
  | s :: rest =>
    let (s', tail1) := flattenStmt origLen s tail
    let (rest', tail2) := flattenList origLen rest tail1
    (s' :: rest', tail2)

/-- Depth-first rewrite of one statement; see `flattenList`. -/
def flattenStmt (origLen : Nat) (s : Spanned Statement) (tail : StatementBlock) :
    Spanned Statement × StatementBlock :=
  match s with
  | ⟨span, .If cond_expr if_true if_false⟩ =>
    let (t', tail1) := flattenList origLen if_true tail
    let (newTrue, tail2) := relocateBlock origLen span t' tail1
    let (f', tail3) := flattenList origLen if_false tail2
    let (newFalse, tail4) := relocateBlock origLen span f' tail3
    (⟨span, .If cond_expr newTrue newFalse⟩, tail4)
  | other => (other, tail)

end

/-- `ast::flatten_block` applied to a whole function body — modelled from
the spec: the rewritten body followed by all relocated blocks. -/
def flatten_block (block : StatementBlock) : StatementBlock :=
  let (body, tail) := flattenList block.length block []
  body ++ tail

/-- Variable-store initialisation inside `State::new`
(src/interpreter/mod.rs lines 75–84): each declared variable gets its
type's default value; a type with no value is an internal error. -/
def initVars : List (String × Ty) → NR (List (String × Value))
  | [] => .ok []
  | (var_name, var_type) :: rest =>
    match Value.from_type var_type with
    | none => .err ((LangErrorMsg.InternalError
        "Invalid variable type not caught by type checker").without_span)
    | some v => do
      let vs ← initVars rest
      .ok ((var_name, v) :: vs)

/-- `State::new` from src/interpreter/mod.rs lines 70–93: flatten the
body, initialise the variables, build the state. -/
def State.new (function : Function) : NR State := do
  let vars ← initVars function.vars
  .ok { instructions := flatten_block function.statements
        instruction_pointer := 0
        vars := vars
        function_type := function.fn_type }

/-- The Rust `Debug` rendering of `Option<Value>` used by the `format!`
in `run_fn` (src/interpreter/mod.rs lines 24–30). -/
def fmtRetVal : Option Value → String
  | none => "None"
  | some (.Int i) => "Some(Int(" ++ toString i ++ "))"
  | some (.CellState c) => "Some(CellState(" ++ toString c ++ "))"

/-- `run_fn` from src/interpreter/mod.rs lines 19–33, with explicit fuel
threaded into the `run` loop: run the function; a `CellState` result is
returned, anything else (no value, or a non-cell-state value) is an
internal error. -/
def run_fn (fuel : Nat) (function : Function) : Option (NR LangCellState) :=
  match State.new function with
  | .crash => some .crash
  | .err e => some (.err e)
  | .ok st =>
    match runFuel fuel st with
    | none => none
    | some .crash => some .crash
    | some (.err e) => some (.err e)
    | some (.ok ret_val) =>
      match ret_val with
      | some (.CellState cell_state) => some (.ok cell_state)
      | _ => some (.err ((LangErrorMsg.InternalError
          ("Transition function produced value other than cell state: "
            ++ fmtRetVal ret_val)).without_span))

/-- Modelled from the spec: a `(line, column)` text position, both
1-based, produced by `Span::textpoints` (src/span.rs is absent). -/
structure TextPoint where
  line : Nat
  column : Nat
deriving DecidableEq, Repr

/-- Modelled from the spec: the text position of character index `pos` in
`src` — line = 1 + newlines before `pos`, column = offset from the start
of that line + 1 (src/span.rs is absent). -/
def textpointAt (src : String) (pos : Nat) : TextPoint :=
  let before := (src.toList.take pos)
  let line := 1 + before.count '\n'
  let lastNewline := (before.reverse.indexOf '\n')
  let column := if '\n' ∈ before then lastNewline + 1 else pos + 1
  { line := line, column := column }

/-- `Span::textpoints` — modelled from the spec: the text positions of the
span's start and end (src/span.rs is absent). -/
def textpoints (span : Span) (src : String) : TextPoint × TextPoint :=
  (textpointAt src span.start, textpointAt src span.stop)

/-- `LangErrorWithSource` from src/errors.rs lines 10–15. -/
structure LangErrorWithSource where
  source_line : Option String
  span : Option (Nat × Nat)
  msg : LangErrorMsg
deriving DecidableEq, Repr

/-- Split a character list at every newline; the separators are dropped
and a trailing newline yields a trailing empty segment (the behaviour of
a plain split, refined below into Rust's `str::lines`). -/
def splitLines (cs : List Char) : List (List Char) :=
  match cs with
  | [] => [[]]
  | c :: rest =>
    if c = '\n' then
      [] :: splitLines rest
    else
      match splitLines rest with
      | l :: ls => (c :: l) :: ls
      | [] => [[c]]

/-- Rust's `str::lines`: split on `\n`, dropping the empty piece produced
by a trailing newline and a trailing `\r` on each line; the empty string
has no lines. -/
def rustLines (s : String) : List String :=
  if s.data = [] then []
  else
    let parts := splitLines s.data
    let parts := if s.data.getLast? = some '\n' then parts.dropLast else parts
    parts.map (fun l => String.mk (if l.getLast? = some '\r' then l.dropLast else l))

/-- `LangError::with_source` from src/errors.rs lines 42–68: resolve the
span against the source text; spans whose start and end are on different
lines (or whose end column is not past the start column) collapse to
`(start, start)`. -/
def LangError.with_source (e : LangError) (src : String) : LangErrorWithSource :=
  match e.span with
  | some span =>
    let (start_tp, end_tp) := textpoints span src
    let start := start_tp.column
    let stop :=
      if start_tp.line = end_tp.line ∧ end_tp.column > start_tp.column then
        end_tp.column
      else
        start
    { source_line := (rustLines src)[start_tp.line - 1]?
      span := some (start, stop)
      msg := e.msg }
  | none =>
    { source_line := none, span := none, msg := e.msg }

/-- Display of `Type` — modelled from the spec (src/types.rs is absent). -/
def Ty.display : Ty → String
  | .Int => "Int"
  | .CellState => "CellState"
  | .Void => "Void"

/-- `impl fmt::Display for LangErrorMsg` from src/errors.rs lines 103–166.
The variants `IntegerOverflow` and `DivideByZero` have no `Display` arm in
src/errors.rs (they are not declared there — see `LangErrorMsg`); they are
given the obvious texts so this function is total. -/
def LangErrorMsg.display : LangErrorMsg → String
  | .Unimplemented => "This feature is unimplemented"
  | .InternalError s =>
      "Internal error: " ++ s
        ++ "\nThis is a bug in NDCell, not your code. Please report this to the developer!"
  | .BoxedInternalError s =>
      "Internal error: " ++ s
        ++ "\nThis is a bug in NDCell, not your code. Please report this to the developer!"
  | .UnknownSymbol => "Unknown symbol"
  | .Unterminated s => "This " ++ s ++ " never ends"
  | .Unmatched c1 c2 =>
      "This '" ++ String.mk [c1] ++ "' has no matching '" ++ String.mk [c2] ++ "'"
  | .Expected s => "Expected " ++ s
  | .TopLevelNonDirective => "Only directives may appear at the top level of a file"
  | .InvalidDirectiveName => "Invalid directive name"
  | .MissingTransitionFunction => "Missing transition function"
  | .MultipleTransitionFunctions => "Multiple transition functions"
  | .TypeError expected got =>
      "Type error: expected " ++ expected.display ++ " but got " ++ got.display
  | .UseOfUninitializedVariable => "This variable might not be initialized before use"
  | .IntegerOverflowDuringNegation => "Integer overflow during negation"
  | .IntegerOverflowDuringAddition => "Integer overflow during addition"
  | .IntegerOverflowDuringSubtraction => "Integer overflow during subtraction"
  | .IntegerOverflowDuringMultiplication => "Integer overflow during multiplication"
  | .CellStateOutOfRange => "Cell state out of range"
  | .IntegerOverflow => "Integer overflow"
  | .DivideByZero => "Divide by zero"

/-- A string of `n` copies of `c` (the two `for` write-loops in
`LangErrorWithSource::fmt`). -/
def repChar (n : Nat) (c : Char) : String :=
  String.mk (List.replicate n c)

/-- `impl fmt::Display for LangErrorWithSource` from src/errors.rs lines
16–34: when both a source line and a resolved span are present, write the
line, then `start − 1` spaces, then one caret per column in `start..stop`
(a half-open range: zero carets when `stop = start`), three spaces, and
the message; otherwise the message alone. -/
def LangErrorWithSource.display (e : LangErrorWithSource) : String :=
  match e.source_line, e.span with
  | some line, some (start, stop) =>
      line ++ "\n" ++ repChar (start - 1) ' ' ++ repChar (stop - start) '^'
        ++ "   " ++ e.msg.display
  | _, _ => e.msg.display

/-- `CompleteLangResult` (src/errors.rs line 7) under the same outcome
model as `NR`: a success, a source-resolved error, or a crash. -/
inductive CR (α : Type) where
  | crash : CR α
  | err (e : LangErrorWithSource) : CR α
  | ok (a : α) : CR α
deriving Repr, DecidableEq

/-- `run_rule` from src/interpreter/mod.rs lines 14–17: run the transition
function and resolve any error against the rule's source code. -/
def run_rule (fuel : Nat) (rule : Rule) : Option (CR LangCellState) :=
  match run_fn fuel rule.transition_fn with
  | none => none
  | some .crash => some .crash
  | some (.err e) => some (.err (e.with_source rule.source_code))
  | some (.ok v) => some (.ok v)

/-! Concrete spans and states used by witnesses and counterexamples. -/

/-- A span standing for a whole expression in concrete instances. -/
def spanA : Span := ⟨3, 9⟩

/-- A span standing for a sub-expression in concrete instances. -/
def spanB : Span := ⟨4, 5⟩

/-- A state with no instructions and no variables. -/
def emptyState : State :=
  { instructions := [], instruction_pointer := 0, vars := [],
    function_type := .Transition }

/-!  C8  -/

/-- Zero repetitions of a character is the empty string. -/
theorem repChar_zero (c : Char) : repChar 0 c = "" := rfl

/-- C8 counterexample: rendering an error whose span starts on line 1 and
ends on line 2 of `"ab\ncd"` emits the source line, one space, **no**
caret (the collapsed span has `start = stop`, and the caret loop runs over
the empty range `start..stop`), three separator spaces and the message —
not the single caret the claim requires. -/
theorem c8_counterexample :
    ((LangErrorMsg.CellStateOutOfRange.with_span ⟨1, 4⟩).with_source
        "ab\ncd").display
      = "ab\n    Cell state out of range"
    ∧ (((LangErrorMsg.CellStateOutOfRange.with_span ⟨1, 4⟩).with_source
        "ab\ncd").display.toList.count '^') = 0 := by
  constructor
  · rfl
  · rfl

/-- C8 (amended): rendering a spanned error against source text emits the
line containing the span's start, then a line of spaces up to the start
column followed by one caret per column of the span's width — where a
span whose start and end lie on different lines is collapsed to a
zero-width span, so **no** caret is emitted — then three spaces and the
message; an error without a span renders the message only. -/
theorem c8_spanned_error_rendering (e : LangError) (src : String) (sp : Span)
    (l1 c1 l2 c2 : Nat) (line : String)
    (hsp : e.span = some sp)
    (h1 : textpointAt src sp.start = ⟨l1, c1⟩)
    (h2 : textpointAt src sp.stop = ⟨l2, c2⟩)
    (hline : (rustLines src)[l1 - 1]? = some line) :
    (l1 = l2 ∧ c2 > c1 →
      (e.with_source src).display
        = line ++ "\n" ++ repChar (c1 - 1) ' ' ++ repChar (c2 - c1) '^'
          ++ "   " ++ e.msg.display)
    ∧ (¬(l1 = l2 ∧ c2 > c1) →
      (e.with_source src).display
        = line ++ "\n" ++ repChar (c1 - 1) ' ' ++ "   " ++ e.msg.display)
    ∧ (∀ e2 : LangError, e2.span = none →
      (e2.with_source src).display = e2.msg.display) := by
  refine ⟨?_, ?_, ?_⟩
  · rintro ⟨hl, hc⟩
    have hstop : (if l1 = l2 ∧ c2 > c1 then c2 else c1) = c2 := if_pos ⟨hl, hc⟩
    simp only [LangError.with_source, textpoints, hsp, h1, h2, hstop, hline,
      LangErrorWithSource.display]
  · intro hcond
    simp only [LangError.with_source, textpoints, hsp, h1, h2, hline,
      LangErrorWithSource.display, if_neg hcond]
    rw [Nat.sub_self, repChar_zero, String.append_empty]
  · intro e2 hsp2
    simp [LangError.with_source, hsp2, LangErrorWithSource.display]

/-- Witness for C8 (amended): a one-line span over all of `"abc"` renders
three carets under the line; a span crossing the newline of `"ab\ncd"`
renders no caret; a span-less error renders the message alone. -/
theorem c8_witness :
    ((LangErrorMsg.UnknownSymbol.with_span ⟨0, 3⟩).with_source "abc").display
      = "abc\n^^^   Unknown symbol"
    ∧ ((LangErrorMsg.UnknownSymbol.with_span ⟨1, 4⟩).with_source "ab\ncd").display
      = "ab\n    Unknown symbol"
    ∧ (LangErrorMsg.UnknownSymbol.without_span.with_source "abc").display
      = "Unknown symbol" := by
  refine ⟨?_, ?_, ?_⟩
  · have h := (c8_spanned_error_rendering
      (LangErrorMsg.UnknownSymbol.with_span ⟨0, 3⟩) "abc" ⟨0, 3⟩ 1 1 1 4 "abc"
      rfl rfl rfl rfl).1 ⟨rfl, by norm_num⟩
    rw [h]
    rfl
  · have h := (c8_spanned_error_rendering
      (LangErrorMsg.UnknownSymbol.with_span ⟨1, 4⟩) "ab\ncd" ⟨1, 4⟩ 1 2 2 2 "ab"
      rfl rfl rfl rfl).2.1 (by rintro ⟨h12, _⟩; exact absurd h12 (by norm_num))
    rw [h]
    rfl
  · exact (c8_spanned_error_rendering
      (LangErrorMsg.UnknownSymbol.with_span ⟨0, 3⟩) "abc" ⟨0, 3⟩ 1 1 1 4 "abc"
      rfl rfl rfl rfl).2.2 LangErrorMsg.UnknownSymbol.without_span rfl

/-!  C1  -/

/-- C1: the claim says checked arithmetic faults with the
operation-specific overflow kind (`IntegerOverflowDuringNegation`,
`IntegerOverflowDuringAddition`, …).  The interpreter as written instead
faults with the single generic kind `IntegerOverflow` for negation,
addition, subtraction and multiplication alike (src/interpreter/mod.rs
lines 221 and 230) — a variant that src/errors.rs does not even declare,
while the operation-specific kinds it does declare are never produced.
This theorem evaluates the code at the boundary inputs and shows the
generic kind differs from every operation-specific kind. -/
theorem c1_overflow_faults_generic_kind :
    eval_int_expr emptyState ⟨spanA, .Neg ⟨spanB, .Literal I64_MIN⟩⟩
      = .err (LangErrorMsg.IntegerOverflow.with_span spanA)
    ∧ eval_int_expr emptyState
        ⟨spanA, .Op ⟨spanB, .Literal I64_MAX⟩ (.Math .Add) ⟨spanB, .Literal 1⟩⟩
      = .err (LangErrorMsg.IntegerOverflow.with_span spanA)
    ∧ eval_int_expr emptyState
        ⟨spanA, .Op ⟨spanB, .Literal I64_MIN⟩ (.Math .Sub) ⟨spanB, .Literal 1⟩⟩
      = .err (LangErrorMsg.IntegerOverflow.with_span spanA)
    ∧ eval_int_expr emptyState
        ⟨spanA, .Op ⟨spanB, .Literal I64_MAX⟩ (.Math .Mul) ⟨spanB, .Literal 2⟩⟩
      = .err (LangErrorMsg.IntegerOverflow.with_span spanA)
    ∧ LangErrorMsg.IntegerOverflow ≠ .IntegerOverflowDuringNegation
    ∧ LangErrorMsg.IntegerOverflow ≠ .IntegerOverflowDuringAddition
    ∧ LangErrorMsg.IntegerOverflow ≠ .IntegerOverflowDuringSubtraction
    ∧ LangErrorMsg.IntegerOverflow ≠ .IntegerOverflowDuringMultiplication := by
  refine ⟨?_, ?_, ?_, ?_, by decide, by decide, by decide, by decide⟩ <;>
    simp [eval_int_expr, evalMathOp, checked_neg, checked_add, checked_sub,
      checked_mul, I64_MIN, I64_MAX]

/-!  C2  -/

/-- C2: an integer division or remainder whose right operand evaluates to
`0` faults `DivideByZero` at the whole expression's span, whatever the
left operand's value — the zero check precedes the checked arithmetic, so
the checked division/remainder is never consulted. -/
theorem c2_div_rem_by_zero_faults_first (st : State) (lhs rhs : Spanned IntExpr)
    (sp spl spr : Span) (x : LangInt) (mop : MathOp)
    (hmop : mop = .Div ∨ mop = .Rem)
    (hl : eval_int_expr st lhs = .ok ⟨spl, x⟩)
    (hr : eval_int_expr st rhs = .ok ⟨spr, 0⟩) :
    eval_int_expr st ⟨sp, .Op lhs (.Math mop) rhs⟩
      = .err (LangErrorMsg.DivideByZero.with_span sp) := by
  rcases hmop with h | h <;> subst h <;>
    simp [eval_int_expr, hl, hr]

/-- Witness for C2: `I64_MIN / 0` and `7 % 0` both fault `DivideByZero`
(for the former, the checked division would also have overflowed — the
zero-divisor fault wins). -/
theorem c2_witness :
    eval_int_expr emptyState
        ⟨spanA, .Op ⟨spanB, .Literal I64_MIN⟩ (.Math .Div) ⟨spanB, .Literal 0⟩⟩
      = .err (LangErrorMsg.DivideByZero.with_span spanA)
    ∧ eval_int_expr emptyState
        ⟨spanA, .Op ⟨spanB, .Literal 7⟩ (.Math .Rem) ⟨spanB, .Literal 0⟩⟩
      = .err (LangErrorMsg.DivideByZero.with_span spanA) :=
  ⟨c2_div_rem_by_zero_faults_first emptyState _ _ spanA spanB spanB I64_MIN .Div
      (Or.inl rfl) (by simp [eval_int_expr]) (by simp [eval_int_expr]),
   c2_div_rem_by_zero_faults_first emptyState _ _ spanA spanB spanB 7 .Rem
      (Or.inr rfl) (by simp [eval_int_expr]) (by simp [eval_int_expr])⟩

/-!  C3  -/

/-- C3: chained comparisons evaluate left to right; a false comparison
makes the chain `0` immediately, whatever operands remain (so an
expression later in the chain — even one that would fault — is never
evaluated); on a true comparison the just-evaluated right operand becomes
the next left operand; an exhausted chain yields `1`.  Concretely,
`3 < 5 > 10` yields `0` even with a division by zero appended after the
false comparison, and `1 < 2 < 3` yields `1`. -/
theorem c3_chained_comparison_short_circuit :
    (∀ (st : State) (lhs : LangInt) (cmp : Cmp) (e : Spanned IntExpr)
      (rest : List (Cmp × Spanned IntExpr)) (sp : Span) (rhs : LangInt),
      eval_int_expr st e = .ok ⟨sp, rhs⟩ →
      evalCompareAny cmp lhs rhs = false →
      eval_chain_int st lhs ((cmp, e) :: rest) = .ok 0)
    ∧ (∀ (st : State) (lhs : LangInt) (cmp : Cmp) (e : Spanned IntExpr)
      (rest : List (Cmp × Spanned IntExpr)) (sp : Span) (rhs : LangInt),
      eval_int_expr st e = .ok ⟨sp, rhs⟩ →
      evalCompareAny cmp lhs rhs = true →
      eval_chain_int st lhs ((cmp, e) :: rest) = eval_chain_int st rhs rest)
    ∧ (∀ (st : State) (lhs : LangInt), eval_chain_int st lhs [] = .ok 1)
    ∧ eval_int_expr emptyState
        ⟨spanA, .CmpInt ⟨spanB, .Literal 3⟩
          [(.Lt, ⟨spanB, .Literal 5⟩), (.Gt, ⟨spanB, .Literal 10⟩),
           (.Lt, ⟨spanB, .Op ⟨spanB, .Literal 1⟩ (.Math .Div) ⟨spanB, .Literal 0⟩⟩)]⟩
      = .ok ⟨spanA, 0⟩
    ∧ eval_int_expr emptyState
        ⟨spanA, .CmpInt ⟨spanB, .Literal 1⟩
          [(.Lt, ⟨spanB, .Literal 2⟩), (.Lt, ⟨spanB, .Literal 3⟩)]⟩
      = .ok ⟨spanA, 1⟩ := by
  refine ⟨?_, ?_, ?_, ?_, ?_⟩
  · intro st lhs cmp e rest sp rhs he hcmp
    simp [eval_chain_int, he, hcmp]
  · intro st lhs cmp e rest sp rhs he hcmp
    simp [eval_chain_int, he, hcmp]
  · intro st lhs
    simp [eval_chain_int]
  · simp [eval_int_expr, eval_chain_int, evalCompareAny]
  · simp [eval_int_expr, eval_chain_int, evalCompareAny]

/-- Witness for C3: the short-circuit conjunct applied at `5 > 10` with a
faulting expression remaining in the chain. -/
theorem c3_witness :
    eval_chain_int emptyState 5
      [(.Gt, ⟨spanB, .Literal 10⟩),
       (.Lt, ⟨spanB, .Op ⟨spanB, .Literal 1⟩ (.Math .Div) ⟨spanB, .Literal 0⟩⟩)]
      = .ok 0 :=
  c3_chained_comparison_short_circuit.1 emptyState 5 .Gt ⟨spanB, .Literal 10⟩
    [(.Lt, ⟨spanB, .Op ⟨spanB, .Literal 1⟩ (.Math .Div) ⟨spanB, .Literal 0⟩⟩)]
    spanB 10 (by simp [eval_int_expr]) (by simp [evalCompareAny])

/-!  C4  -/

/-- C4: after any non-terminal instruction the program counter is bumped
by exactly one — in particular `Goto idx` leaves the counter at `idx + 1`
(so an encoded jump target must be the intended destination minus one),
and a successful `SetVar` leaves it at the old counter plus one. -/
theorem c4_goto_leaves_pc_at_target_plus_one :
    (∀ (st : State) (sp : Span) (idx : Nat),
      st.instructions[st.instruction_pointer]? = some ⟨sp, .Goto idx⟩ →
      step st = .ok (.Continue, { st with instruction_pointer := idx + 1 }))
    ∧ (∀ (st st' : State) (sp : Span) (n : Spanned String) (e : Expr),
      st.instructions[st.instruction_pointer]? = some ⟨sp, .SetVar n e⟩ →
      step st = .ok (.Continue, st') →
      st'.instruction_pointer = st.instruction_pointer + 1) := by
  constructor
  · intro st sp idx h
    simp [step, h]
  · intro st st' sp n e h hstep
    simp only [step, h] at hstep
    split at hstep
    · cases hstep
    · split at hstep
      · cases hstep
      · rcases e with e | e
        · dsimp only at hstep
          rcases hev : eval_int_expr st e with _ | er | v <;>
            rw [hev] at hstep
          · cases hstep
          · cases hstep
          · cases hstep
            rfl
        · dsimp only at hstep
          rcases hev : eval_cell_state_expr st e with _ | er | v <;>
            rw [hev] at hstep
          · cases hstep
          · cases hstep
          · cases hstep
            rfl

/-- A one-instruction program holding `Goto 5`, used by the C4 witness. -/
def gotoState : State :=
  { instructions := [⟨spanA, .Goto 5⟩], instruction_pointer := 0,
    vars := [], function_type := .Transition }

/-- A one-instruction program assigning `3` to `x`, used by the C4 witness. -/
def setVarState : State :=
  { instructions := [⟨spanA, .SetVar ⟨spanB, "x"⟩ (.Int ⟨spanB, .Literal 3⟩)⟩],
    instruction_pointer := 0, vars := [("x", .Int 0)],
    function_type := .Transition }

/-- Witness for C4: executing `Goto 5` from counter `0` leaves the
counter at `6 = 5 + 1`, and the `SetVar` of an integer literal steps to a
state whose counter is the old counter plus one. -/
theorem c4_witness :
    step gotoState = .ok (.Continue, { gotoState with instruction_pointer := 5 + 1 })
    ∧ ∃ st' : State, step setVarState = .ok (.Continue, st')
        ∧ st'.instruction_pointer = setVarState.instruction_pointer + 1 := by
  have hset : step setVarState
      = .ok (.Continue, { setVarState with instruction_pointer := 1, vars := [("x", .Int 3)] }) := by
    simp [step, setVarState, lookupVar, updateVar, Value.ty, Expr.ty, eval_int_expr]
  exact ⟨c4_goto_leaves_pc_at_target_plus_one.1 gotoState spanA 5 rfl,
    ⟨_, hset, c4_goto_leaves_pc_at_target_plus_one.2 setVarState _ spanA
        ⟨spanB, "x"⟩ (.Int ⟨spanB, .Literal 3⟩) rfl hset⟩⟩

/-!  C5  -/

/-- `goto_block` on a block headed by a `Goto`: jumps to its target, no
matter what follows the leading `Goto`. -/
theorem goto_block_cons_goto (ip t : Nat) (spg : Span) (rest : StatementBlock) :
    goto_block ip (⟨spg, .Goto t⟩ :: rest) = .ok t := by
  simp [goto_block]

/-- `goto_block` on an empty block: leaves the counter unchanged. -/
theorem goto_block_nil (ip : Nat) : goto_block ip [] = .ok ip := by
  simp [goto_block]

/-- `goto_block` on a block whose first statement is not a `Goto`: the
internal error. -/
theorem goto_block_not_goto (ip : Nat) (s0 : Spanned Statement)
    (rest : StatementBlock) (h : ∀ t : Nat, s0.inner ≠ .Goto t) :
    goto_block ip (s0 :: rest)
      = .err ((LangErrorMsg.InternalError
          "Block in interpreter did not contain GOTO statement").without_span) := by
  rcases s0 with ⟨sps, s⟩
  cases s with
  | Goto t => exact absurd rfl (h t)
  | SetVar n e => simp [goto_block]
  | If c tb fb => simp [goto_block]
  | Return e => simp [goto_block]
  | End => simp [goto_block]

/-- `step` on an `If` instruction reduces to `goto_block` on the selected
arm followed by the universal `+1`. -/
theorem step_if_eq (st : State) (sp spc : Span) (c : Spanned IntExpr)
    (tb fb : StatementBlock) (i : Int)
    (hinstr : st.instructions[st.instruction_pointer]? = some ⟨sp, .If c tb fb⟩)
    (hc : eval_int_expr st c = .ok ⟨spc, i⟩) :
    step st = (goto_block st.instruction_pointer (if i = 0 then fb else tb)) >>=
      (fun ip => .ok (.Continue, { st with instruction_pointer := ip + 1 })) := by
  by_cases hi : i = 0 <;>
    simp [step, hinstr, hc, hi]

/-- The `If` instruction whose true arm is `[Goto 5, End]` — a block that
is neither empty nor a single `Goto` — used by the C5 counterexample. -/
def ifGarbageState : State :=
  { instructions := [⟨spanA, .If ⟨spanB, .Literal 1⟩
      [⟨spanB, .Goto 5⟩, ⟨spanB, .End⟩] []⟩],
    instruction_pointer := 0, vars := [], function_type := .Transition }

/-- C5 counterexample: the chosen arm `[Goto 5, End]` is neither empty
nor a single `Goto`, yet `step` does not fault — it silently jumps via
the leading `Goto` and ignores the trailing statement, ending with the
counter at `6`.  The claim as stated (any such block is an internal
error) is therefore false: `goto_block` inspects only the first
statement. -/
theorem c5_counterexample :
    step ifGarbageState
      = .ok (.Continue, { ifGarbageState with instruction_pointer := 6 })
    ∧ ∀ e : LangError, step ifGarbageState ≠ .err e := by
  have h : step ifGarbageState
      = .ok (.Continue, { ifGarbageState with instruction_pointer := 6 }) := by
    simp [step, ifGarbageState, eval_int_expr, goto_block]
  refine ⟨h, fun e hc => ?_⟩
  rw [h] at hc
  cases hc

/-- C5 (amended): executing an `If` evaluates the condition as an integer
with nonzero meaning true and selects the corresponding arm; a block
whose *first* statement is `Goto t` sets the counter to `t` (trailing
statements, if any, are ignored) so the universal `+1` lands on `t + 1`;
an empty block leaves the counter unchanged so the `+1` falls through;
and a block whose first statement exists but is not a `Goto` is an
internal error. -/
theorem c5_if_block_resolution (st : State) (sp spc : Span)
    (c : Spanned IntExpr) (tb fb : StatementBlock) (i : Int)
    (hinstr : st.instructions[st.instruction_pointer]? = some ⟨sp, .If c tb fb⟩)
    (hc : eval_int_expr st c = .ok ⟨spc, i⟩) :
    ((if i = 0 then fb else tb) = [] →
      step st = .ok (.Continue,
        { st with instruction_pointer := st.instruction_pointer + 1 }))
    ∧ (∀ (spg : Span) (t : Nat) (rest : StatementBlock),
      (if i = 0 then fb else tb) = ⟨spg, .Goto t⟩ :: rest →
      step st = .ok (.Continue, { st with instruction_pointer := t + 1 }))
    ∧ (∀ (s0 : Spanned Statement) (rest : StatementBlock),
      (if i = 0 then fb else tb) = s0 :: rest →
      (∀ t : Nat, s0.inner ≠ .Goto t) →
      step st = .err ((LangErrorMsg.InternalError
        "Block in interpreter did not contain GOTO statement").without_span)) := by
  have hstep := step_if_eq st sp spc c tb fb i hinstr hc
  refine ⟨?_, ?_, ?_⟩
  · intro hempty
    rw [hstep, hempty, goto_block_nil]
    rfl
  · intro spg t rest hgoto
    rw [hstep, hgoto, goto_block_cons_goto]
    rfl
  · intro s0 rest hcons hng
    rw [hstep, hcons, goto_block_not_goto st.instruction_pointer s0 rest hng]
    rfl

/-- An `If` with a true condition and two empty arms. -/
def ifEmptyArmState : State :=
  { instructions := [⟨spanA, .If ⟨spanB, .Literal 1⟩ [] []⟩],
    instruction_pointer := 0, vars := [], function_type := .Transition }

/-- An `If` with a false condition and a single-`Goto` false arm. -/
def ifGotoArmState : State :=
  { instructions := [⟨spanA, .If ⟨spanB, .Literal 0⟩ [] [⟨spanB, .Goto 7⟩]⟩],
    instruction_pointer := 0, vars := [], function_type := .Transition }

/-- An `If` with a false condition and a false arm headed by `End`. -/
def ifBadArmState : State :=
  { instructions := [⟨spanA, .If ⟨spanB, .Literal 0⟩ [] [⟨spanB, .End⟩]⟩],
    instruction_pointer := 0, vars := [], function_type := .Transition }

/-- Witness for C5 (amended): a true condition with an empty true arm
falls through (counter `0` → `1`); a false condition whose false arm is a
single `Goto 7` jumps (counter → `8`); a false arm headed by `End` is the
internal error. -/
theorem c5_witness :
    step ifEmptyArmState
      = .ok (.Continue, { ifEmptyArmState with instruction_pointer := 0 + 1 })
    ∧ step ifGotoArmState
      = .ok (.Continue, { ifGotoArmState with instruction_pointer := 7 + 1 })
    ∧ step ifBadArmState
      = .err ((LangErrorMsg.InternalError
          "Block in interpreter did not contain GOTO statement").without_span) := by
  refine ⟨?_, ?_, ?_⟩
  · exact (c5_if_block_resolution ifEmptyArmState spanA spanB ⟨spanB, .Literal 1⟩
      [] [] 1 rfl (by simp [eval_int_expr])).1 (by simp)
  · exact (c5_if_block_resolution ifGotoArmState spanA spanB ⟨spanB, .Literal 0⟩
      [] [⟨spanB, .Goto 7⟩] 0 rfl (by simp [eval_int_expr])).2.1 spanB 7 [] (by simp)
  · exact (c5_if_block_resolution ifBadArmState spanA spanB ⟨spanB, .Literal 0⟩
      [] [⟨spanB, .End⟩] 0 rfl (by simp [eval_int_expr])).2.2 ⟨spanB, .End⟩ []
      (by simp) (fun t h => by cases h)

/-!  C9  -/

/-- The `Return` instruction inside a `Helper`-typed function, used by
the C9 counterexample. -/
def helperReturnState : State :=
  { instructions := [⟨spanA, .Return (Expr.CellState ⟨spanB, .FnCall⟩)⟩],
    instruction_pointer := 0, vars := [], function_type := .Helper .CellState }

/-- C9 counterexample: a `Return` executed in a `Helper`-typed function
faults `Unimplemented` (spanned at the return expression,
src/interpreter/mod.rs line 157), which is not an internal error — so the
claim's "any other combination is an internal error" is false for the
helper case. -/
theorem c9_counterexample :
    step helperReturnState = .err (LangErrorMsg.Unimplemented.with_span spanB)
    ∧ ∀ s : String, LangErrorMsg.Unimplemented ≠ LangErrorMsg.InternalError s := by
  constructor
  · simp [step, helperReturnState, Expr.span]
  · intro s h
    cases h

/-- C9 (amended): a `Return` in a `Transition`-typed function with a
cell-state-typed expression evaluates it and ends execution with that
cell-state value; a non-cell-state-typed return expression in a
`Transition` function is an internal error; a `Return` in a
`Helper`-typed function faults `Unimplemented` at the return
expression's span (not an internal error). -/
theorem c9_return_semantics (st : State) (sp : Span) (re : Expr)
    (hinstr : st.instructions[st.instruction_pointer]? = some ⟨sp, .Return re⟩) :
    (∀ (cse : Spanned CellStateExpr) (spv : Span) (v : Nat),
      st.function_type = .Transition →
      re = .CellState cse →
      eval_cell_state_expr st cse = .ok ⟨spv, v⟩ →
      step st = .ok (.Return (some (.CellState v)), st))
    ∧ (st.function_type = .Transition → re.ty ≠ .CellState →
      step st = .err ((LangErrorMsg.InternalError
        "Invalid return statement not caught by type checker").without_span))
    ∧ (∀ rt : Ty, st.function_type = .Helper rt →
      step st = .err (LangErrorMsg.Unimplemented.with_span re.span)) := by
  refine ⟨?_, ?_, ?_⟩
  · intro cse spv v hft hre heval
    subst hre
    simp [step, hinstr, hft, Expr.ty, Expr.as_cell_state_expr, heval]
  · intro hft hty
    rcases re with e | e
    · simp [step, hinstr, hft, Expr.ty]
    · exact absurd rfl hty
  · intro rt hft
    simp [step, hinstr, hft]

/-- A `Transition` function returning `FromId 3`. -/
def returnFromIdState : State :=
  { instructions := [⟨spanA, .Return (Expr.CellState
      ⟨spanB, .FromId ⟨spanB, .Literal 3⟩⟩)⟩],
    instruction_pointer := 0, vars := [], function_type := .Transition }

/-- A `Transition` function returning an integer literal. -/
def returnIntState : State :=
  { instructions := [⟨spanA, .Return (Expr.Int ⟨spanB, .Literal 3⟩)⟩],
    instruction_pointer := 0, vars := [], function_type := .Transition }

/-- Witness for C9 (amended): a `Transition` function returning
`FromId 3` ends with cell state `3`; a `Transition` function returning an
integer literal is the internal error; the helper case reuses the
concrete `helperReturnState`. -/
theorem c9_witness :
    step returnFromIdState = .ok (.Return (some (.CellState 3)), returnFromIdState)
    ∧ step returnIntState
      = .err ((LangErrorMsg.InternalError
          "Invalid return statement not caught by type checker").without_span)
    ∧ step helperReturnState = .err (LangErrorMsg.Unimplemented.with_span spanB) := by
  refine ⟨?_, ?_, ?_⟩
  · exact (c9_return_semantics returnFromIdState spanA _ rfl).1
      ⟨spanB, .FromId ⟨spanB, .Literal 3⟩⟩ spanB 3 rfl rfl
      (by simp [eval_cell_state_expr, eval_int_expr, CELL_STATE_COUNT])
  · exact (c9_return_semantics returnIntState spanA _ rfl).2.1 rfl (by intro h; cases h)
  · exact (c9_return_semantics helperReturnState spanA _ rfl).2.2 .CellState rfl

/-!  C6  -/

/-- C6: a program counter past the last instruction makes `step` end
execution with no value rather than fault, and an `End` instruction ends
execution with no value; the state is unchanged in both cases. -/
theorem c6_end_and_past_end_return_no_value (st : State) :
    (st.instructions[st.instruction_pointer]? = none →
      step st = .ok (.Return none, st))
    ∧ (∀ sp : Span,
      st.instructions[st.instruction_pointer]? = some ⟨sp, .End⟩ →
      step st = .ok (.Return none, st)) := by
  constructor
  · intro h
    simp [step, h]
  · intro sp h
    simp [step, h]

/-- A one-instruction program holding `End`, used by the C6 witness. -/
def endState : State :=
  { instructions := [⟨spanA, .End⟩], instruction_pointer := 0,
    vars := [], function_type := .Transition }

/-- Witness for C6: the empty program ends with no value at counter `0`,
and a one-instruction `End` program ends with no value. -/
theorem c6_witness :
    step emptyState = .ok (.Return none, emptyState)
    ∧ step endState = .ok (.Return none, endState) :=
  ⟨(c6_end_and_past_end_return_no_value emptyState).1 rfl,
   (c6_end_and_past_end_return_no_value endState).2 spanA rfl⟩

/-!  C10  -/

/-- C10: `run_fn` succeeds with a cell state exactly when the run loop
finished with a `CellState` value; a run that ends with no value or with
an integer value makes `run_fn` an internal error instead; and `step`
can only produce a `Return` carrying a value from a `Return` statement —
so the public interface never reports success unless a `Return` was
executed. -/
theorem c10_run_fn_success_iff_cellstate (fuel : Nat) (f : Function) (st : State)
    (hnew : State.new f = .ok st) :
    (∀ cs : Nat, run_fn fuel f = some (.ok cs) ↔
      runFuel fuel st = some (.ok (some (Value.CellState cs))))
    ∧ (runFuel fuel st = some (.ok none) →
      run_fn fuel f = some (.err ((LangErrorMsg.InternalError
        ("Transition function produced value other than cell state: "
          ++ fmtRetVal none)).without_span)))
    ∧ (∀ i : Int, runFuel fuel st = some (.ok (some (Value.Int i))) →
      run_fn fuel f = some (.err ((LangErrorMsg.InternalError
        ("Transition function produced value other than cell state: "
          ++ fmtRetVal (some (Value.Int i)))).without_span)))
    ∧ (∀ (s s' : State) (v : Value), step s = .ok (.Return (some v), s') →
      ∃ (sp : Span) (re : Expr),
        s.instructions[s.instruction_pointer]? = some ⟨sp, .Return re⟩) := by
  refine ⟨?_, ?_, ?_, ?_⟩
  · intro cs
    simp only [run_fn, hnew]
    rcases hr : runFuel fuel st with _ | r
    · simp
    · rcases r with _ | e | ret
      · simp
      · simp
      · rcases ret with _ | v
        · simp
        · rcases v with i | c <;> simp
  · intro hr
    simp only [run_fn, hnew, hr]
  · intro i hr
    simp only [run_fn, hnew, hr]
  · intro s s' v hstep
    rcases hi : s.instructions[s.instruction_pointer]? with _ | instr
    · rw [step, hi] at hstep
      cases hstep
    · rcases instr with ⟨spi, stmt⟩
      cases stmt with
      | Return re => exact ⟨spi, re, rfl⟩
      | End =>
        rw [step, hi] at hstep
        cases hstep
      | Goto idx =>
        rw [step, hi] at hstep
        cases hstep
      | SetVar n e =>
        simp only [step, hi] at hstep
        split at hstep
        · cases hstep
        · split at hstep
          · cases hstep
          · rcases e with e | e
            · dsimp only at hstep
              rcases hev : eval_int_expr s e with _ | er | w <;>
                rw [hev] at hstep <;> cases hstep
            · dsimp only at hstep
              rcases hev : eval_cell_state_expr s e with _ | er | w <;>
                rw [hev] at hstep <;> cases hstep
      | If c tb fb =>
        rcases hev : eval_int_expr s c with _ | er | w
        · simp only [step, hi, hev, NR.bind_crash] at hstep
          cases hstep
        · simp only [step, hi, hev, NR.bind_err] at hstep
          cases hstep
        · have heq := step_if_eq s spi w.span c tb fb w.inner hi (by rw [hev])
          rw [heq] at hstep
          rcases hgb : goto_block s.instruction_pointer
              (if w.inner = 0 then fb else tb) with _ | er | ip <;>
            rw [hgb] at hstep <;> cases hstep

/-- The one-statement transition function `Return (FromId 3)`, used by
the C10 witness. -/
def returnFn : Function :=
  { statements := [⟨spanA, .Return (Expr.CellState
      ⟨spanB, .FromId ⟨spanB, .Literal 3⟩⟩)⟩],
    vars := [], fn_type := .Transition }

/-- The one-statement transition function `End`, used by the C10 witness. -/
def endFn : Function :=
  { statements := [⟨spanA, .End⟩], vars := [], fn_type := .Transition }

/-- Witness for C10: running `returnFn` with one unit of fuel succeeds
with cell state `3` (its run loop ends in a `Return` of that value), and
running the one-statement `End` function is the internal error. -/
theorem c10_witness :
    run_fn 1 returnFn = some (.ok 3)
    ∧ run_fn 1 endFn
      = some (.err ((LangErrorMsg.InternalError
        ("Transition function produced value other than cell state: "
          ++ fmtRetVal none)).without_span)) := by
  have hnew : State.new returnFn = .ok returnFromIdState := by
    simp [State.new, returnFn, returnFromIdState, initVars, flatten_block,
      flattenList, flattenStmt]
  have hnew2 : State.new endFn = .ok endState := by
    simp [State.new, endFn, endState, initVars, flatten_block, flattenList,
      flattenStmt]
  constructor
  · exact ((c10_run_fn_success_iff_cellstate 1 returnFn returnFromIdState hnew).1 3).mpr
      (by simp [runFuel, step, returnFromIdState, Expr.ty, Expr.as_cell_state_expr,
        eval_cell_state_expr, eval_int_expr, CELL_STATE_COUNT])
  · exact (c10_run_fn_success_iff_cellstate 1 endFn endState hnew2).2.1
      (by simp [runFuel, step, endState])

/-!  C7  -/

/-- C7: `FromId` succeeds exactly on integers in `[0, CELL_STATE_COUNT)`,
returning the cell state with the same numeric value (the conversion
round-trips); any other integer faults `CellStateOutOfRange` at the
`FromId` expression's span. -/
theorem c7_from_id_range_check (st : State) (sp spi : Span)
    (e : Spanned IntExpr) (id : Int)
    (h : eval_int_expr st e = .ok ⟨spi, id⟩) :
    (0 ≤ id ∧ id < (CELL_STATE_COUNT : Int) →
      eval_cell_state_expr st ⟨sp, .FromId e⟩ = .ok ⟨sp, id.toNat⟩
        ∧ (id.toNat : Int) = id)
    ∧ (id < 0 ∨ (CELL_STATE_COUNT : Int) ≤ id →
      eval_cell_state_expr st ⟨sp, .FromId e⟩
        = .err (LangErrorMsg.CellStateOutOfRange.with_span sp)) := by
  have hcn : CELL_STATE_COUNT = 100 := rfl
  constructor
  · rintro ⟨h0, hlt⟩
    rw [show (CELL_STATE_COUNT : Int) = 100 from rfl] at hlt
    have hnat : id.toNat < CELL_STATE_COUNT := by
      rw [hcn]
      omega
    have hmod : id.toNat % 256 = id.toNat := Nat.mod_eq_of_lt (by omega)
    refine ⟨?_, by omega⟩
    simp [eval_cell_state_expr, h, h0, hnat, hmod]
  · intro hout
    rw [show (CELL_STATE_COUNT : Int) = 100 from rfl] at hout
    have hneg : ¬(0 ≤ id ∧ id.toNat < CELL_STATE_COUNT) := by
      rw [hcn]
      omega
    simp only [eval_cell_state_expr, h, NR.bind_ok]
    rw [if_neg hneg]

/-- Witness for C7: `FromId 3` yields cell state `3`; `FromId (-1)` and
`FromId CELL_STATE_COUNT` fault `CellStateOutOfRange`. -/
theorem c7_witness :
    eval_cell_state_expr emptyState ⟨spanA, .FromId ⟨spanB, .Literal 3⟩⟩
      = .ok ⟨spanA, 3⟩
    ∧ eval_cell_state_expr emptyState ⟨spanA, .FromId ⟨spanB, .Literal (-1)⟩⟩
      = .err (LangErrorMsg.CellStateOutOfRange.with_span spanA)
    ∧ eval_cell_state_expr emptyState
        ⟨spanA, .FromId ⟨spanB, .Literal (CELL_STATE_COUNT : Int)⟩⟩
      = .err (LangErrorMsg.CellStateOutOfRange.with_span spanA) :=
  ⟨((c7_from_id_range_check emptyState spanA spanB ⟨spanB, .Literal 3⟩ 3
      (by simp [eval_int_expr])).1 (by constructor <;> simp [CELL_STATE_COUNT])).1,
   (c7_from_id_range_check emptyState spanA spanB ⟨spanB, .Literal (-1)⟩ (-1)
      (by simp [eval_int_expr])).2 (Or.inl (by norm_num)),
   (c7_from_id_range_check emptyState spanA spanB
      ⟨spanB, .Literal (CELL_STATE_COUNT : Int)⟩ (CELL_STATE_COUNT : Int)
      (by simp [eval_int_expr])).2 (Or.inr le_rfl)⟩

end NDCA
